import Mathlib

/-!
Shallow embedding of the simple-file-client program (src/main.rs) and proofs of
the specified properties.

Modelling conventions:
* Bytes are `Nat` values; file contents are `List Nat`.
* The local filesystem is a total map from path to optional content; local I/O
  failures are not modelled (every filesystem operation in scope succeeds).
* The SHA-256 hex digest `hex::encode ∘ Sha256::digest` is abstracted as a
  function parameter `sha : List Nat → String`; incremental `hasher.update`
  calls over successive blocks amount to hashing the concatenation of all
  written bytes, so the streaming hash is embedded as `sha` applied to the
  full written byte list.
* The thread random generator is abstracted as a stream `rng : Nat → Nat`.
* The network is abstracted as outcome oracles (one outcome per request or per
  loop iteration).
-/

/-- Filesystem model: maps a path to the byte content of the file there, if any. -/
abbrev FS := String → Option (List Nat)

/-- Byte values of the `Alphanumeric` character set of the rand crate,
`ABCDEFGHIJKLMNOPQRSTUVWXYZabcdefghijklmnopqrstuvwxyz0123456789`. -/
def GEN_CHARSET : List Nat :=
  ((List.range 26).map (· + 65)) ++ ((List.range 26).map (· + 97)) ++
    ((List.range 10).map (· + 48))

/-- The pseudo-random alphanumeric byte at stream position `p`: the raw random
stream `rng` reduced to one of the 62 charset members. -/
def alphanumByte (rng : Nat → Nat) (p : Nat) : Nat :=
  GEN_CHARSET.getD (rng p % 62) 0

/-- The `block_size` local of `generate_random_text_file`. -/
def blockSize : Nat := 1024

/-- The successive blocks written by the generation loop of
`generate_random_text_file`: while `generated_size < size`, a block of
`min block_size (size - generated_size)` fresh random alphanumeric bytes is
written and `generated_size` advances by that chunk size. -/
def genBlocks (rng : Nat → Nat) (size generated : Nat) : List (List Nat) :=
  if h : generated < size then
    ((List.range (min blockSize (size - generated))).map
        fun j => alphanumByte rng (generated + j)) ::
      genBlocks rng size (generated + min blockSize (size - generated))
  else []
termination_by size - generated
decreasing_by
  simp only [blockSize]
  omega

/-- All bytes written by a fresh generation of `size` bytes. -/
def genBytes (rng : Nat → Nat) (size : Nat) : List Nat :=
  (genBlocks rng size 0).flatten

/-- Written from the specification's wording, for comparison with `genBlocks`:
the block sizes are "the lesser of a fixed block size (1024 bytes) and the
remaining byte count" until the target size is reached. -/
def specChunkSizes (size generated : Nat) : List Nat :=
  if h : generated < size then
    min blockSize (size - generated) ::
      specChunkSizes size (generated + min blockSize (size - generated))
  else []
termination_by size - generated
decreasing_by
  simp only [blockSize]
  omega

/-- Model of `generate_random_text_file` from src/main.rs: if a file exists at
`path` whose length equals `size`, return the digest of its existing bytes and
leave the filesystem unchanged; otherwise create/truncate the file, write
`size` random bytes in blocks, and return the digest of the written bytes.
Returns the updated filesystem and the returned digest string. -/
def generate_random_text_file (sha : List Nat → String) (rng : Nat → Nat)
    (fs : FS) (path : String) (size : Nat) : FS × String :=
  match fs path with
  | some content =>
    if content.length = size then
      (fs, sha content)
    else
      (fun p => if p = path then some (genBytes rng size) else fs p,
        sha (genBytes rng size))
  | none =>
    (fun p => if p = path then some (genBytes rng size) else fs p,
      sha (genBytes rng size))

/-- HTTP method of a request issued by the client. -/
inductive Method
  | POST
  | GET
  | DELETE
deriving DecidableEq

/-- One HTTP exchange as configured by the source: the reqwest `ClientBuilder`
settings (`danger_accept_invalid_certs(true)`, the optional `.timeout(...)`
call in seconds) together with the request method, URL and the multipart file
part (form field "file"), if any. -/
structure HttpRequest where
  method : Method
  url : String
  clientTimeout : Option Nat
  acceptInvalidCerts : Bool
  multipartFile : Option String
deriving DecidableEq

/-- The request built by `upload_file`: POST to `{server_url}/upload` with a
multipart file part, on a client built with `danger_accept_invalid_certs(true)`
and `.timeout(Duration::from_secs(timeout_secs))`. -/
def uploadRequest (server file : String) (timeoutSecs : Nat) : HttpRequest :=
  ⟨.POST, server ++ "/upload", some timeoutSecs, true, some file⟩

/-- The endpoint segment chosen by `download_file` from the `chunked` flag. -/
def downloadEndpoint (chunked : Bool) : String :=
  if chunked then "download-chunked" else "download"

/-- The URL `format!("{}/{}/{}", server_url, endpoint, filename)` built by
`download_file`. -/
def downloadUrl (server file : String) (chunked : Bool) : String :=
  server ++ "/" ++ downloadEndpoint chunked ++ "/" ++ file

/-- The request built by `download_file`: GET on `downloadUrl`, on a client
built with `danger_accept_invalid_certs(true)` and no `.timeout` call. -/
def downloadRequest (server file : String) (chunked : Bool) : HttpRequest :=
  ⟨.GET, downloadUrl server file chunked, none, true, none⟩

/-- The request built by `delete_file`: DELETE on
`format!("{}/{}", server_url, filename)`, on a client built with
`danger_accept_invalid_certs(true)` and no `.timeout` call. -/
def deleteRequest (server file : String) : HttpRequest :=
  ⟨.DELETE, server ++ "/" ++ file, none, true, none⟩

/-- The `DownloadError` enum from src/main.rs: `Network` wraps a
`reqwest::Error`, `Io` wraps a `std::io::Error`; payloads are modelled as
messages. -/
inductive DownloadError
  | Network (msg : String)
  | Io (msg : String)
deriving DecidableEq

/-- Model of `download_file` from src/main.rs. `world` models the network: the
response to the single GET request, as `Except netErr (Except ioErr body)` —
the outer error is the network layer (client build / `send`), the inner one a
failure of `read_to_end`. On success the whole body is hashed and
`(buffer.len(), hex digest)` is returned. -/
def download_file (sha : List Nat → String)
    (world : HttpRequest → Except String (Except String (List Nat)))
    (server filename : String) (chunked : Bool) :
    Except DownloadError (Nat × String) :=
  match world (downloadRequest server filename chunked) with
  | .error e => .error (.Network e)
  | .ok (.error e) => .error (.Io e)
  | .ok (.ok body) => .ok (body.length, sha body)

/-- Model of `std::time::Duration`: whole seconds and subsecond nanoseconds.
The `u64` overflow of seconds (which panics in Rust addition) is outside the
modelled range. -/
structure Dur where
  secs : Nat
  nanos : Nat
deriving DecidableEq

/-- Nanoseconds per second. -/
def NANOS_PER_SEC : Nat := 1000000000

/-- The `Duration::new` constructor: normalizes nanoseconds into seconds. -/
def Dur.new (secs nanos : Nat) : Dur :=
  ⟨secs + nanos / NANOS_PER_SEC, nanos % NANOS_PER_SEC⟩

/-- Model of `Duration` addition (as folded by `iter().sum::<Duration>()`). -/
def Dur.add (a b : Dur) : Dur :=
  if a.nanos + b.nanos ≥ NANOS_PER_SEC then
    ⟨a.secs + b.secs + 1, a.nanos + b.nanos - NANOS_PER_SEC⟩
  else
    ⟨a.secs + b.secs, a.nanos + b.nanos⟩

/-- The zero duration (the start value of `sum::<Duration>()`). -/
def Dur.zero : Dur := ⟨0, 0⟩

/-- Model of `durations.iter().copied().sum::<Duration>()`. -/
def durSum (l : List Dur) : Dur := l.foldl Dur.add Dur.zero

/-- Model of `Duration / u32` (`Duration::checked_div`; every divisor used
here is nonzero). -/
def Dur.div (d : Dur) (rhs : Nat) : Dur :=
  let secs := d.secs / rhs
  let carry := d.secs - secs * rhs
  let extraNanos := carry * NANOS_PER_SEC / rhs
  Dur.new secs (d.nanos / rhs + extraNanos)

/-- The printed average: the summed durations divided by their count, exactly
as in `durations.iter().copied().sum::<Duration>() / durations.len() as u32`. -/
def averageDuration (l : List Dur) : Dur := Dur.div (durSum l) l.length

/-- Model of `str::parse::<u64>` / `str::parse::<usize>` (both 64-bit here):
an optional leading `+`, then at least one ASCII digit, with a value below
2^64; anything else fails. -/
def parseNat (s : String) : Option Nat :=
  let cs := match s.data with
    | '+' :: rest => rest
    | cs => cs
  if cs.isEmpty then none
  else if cs.all Char.isDigit then
    let n := cs.foldl (fun acc c => acc * 10 + (c.toNat - 48)) 0
    if n < 18446744073709551616 then some n else none
  else none

/-- Model of the iteration-count resolution in `main`:
`matches.get_one("iterations").and_then(|it| it.parse::<usize>().ok()).unwrap_or(1)`. -/
def resolveIterations (arg : Option String) : Nat := (arg.bind parseNat).getD 1

/-- Model of the timeout resolution in `main`:
`matches.get_one("timeout").and_then(|it| it.parse::<u64>().ok()).unwrap_or(30)`. -/
def resolveTimeout (arg : Option String) : Nat := (arg.bind parseNat).getD 30

/-- Model of the size resolution in generate mode:
`matches.get_one("size").map(|s| s.parse().unwrap()).unwrap_or(1024)`.
The result `none` models the panic of `.unwrap()` on an unparseable value. -/
def resolveSize (arg : Option String) : Option Nat :=
  match arg with
  | some s => parseNat s
  | none => some 1024

/-- Mutable state of the transfer loop: the requests issued so far and the two
duration vectors `upload_durations` / `download_durations`. -/
structure RunState where
  requests : List HttpRequest
  uploadDurations : List Dur
  downloadDurations : List Dur
deriving DecidableEq

/-- The state at entry of the loop: nothing issued, both vectors empty. -/
def initState : RunState := ⟨[], [], []⟩

/-- One iteration of the main transfer loop. `uRes` models the outcome of
`upload_file` (`some d` = success with elapsed duration `d`; `none` = error,
which is only logged); `dRes` models the outcome of `download_file`
(duration, size and digest on success); `delRes` models the outcome of
`delete_file`, which the source binds to `_` and discards. The result
`.error (code, st)` models `std::process::exit(code)` with the state reached
at the moment of exit. -/
def iterBody (server uploadFile downloadFile : Option String) (chunked : Bool)
    (timeout : Nat) (uRes : Option Dur) (dRes : Option (Dur × Nat × String))
    (delRes : Except String Nat) (st : RunState) :
    Except (Nat × RunState) RunState :=
  let step1 : Except (Nat × RunState) RunState :=
    match uploadFile with
    | none => .ok st
    | some file =>
      match server with
      | none => .error (1, st)
      | some s =>
        let _ := delRes
        let st1 := { st with
          requests := st.requests ++
            [deleteRequest s file, uploadRequest s file timeout] }
        match uRes with
        | some d =>
          .ok { st1 with uploadDurations := st1.uploadDurations ++ [d] }
        | none => .ok st1
  match step1 with
  | .error e => .error e
  | .ok st1 =>
    match downloadFile with
    | none => .ok st1
    | some file =>
      match server with
      | none => .error (1, st1)
      | some s =>
        let st2 := { st1 with
          requests := st1.requests ++ [downloadRequest s file chunked] }
        match dRes with
        | some d =>
          .ok { st2 with downloadDurations := st2.downloadDurations ++ [d.1] }
        | none => .ok st2

/-- The `for _ in 0..iterations` loop of `main`, over the listed iteration
indices, with per-iteration outcome oracles `uo`, `dlo`, `delo`. -/
def runLoop (server uploadFile downloadFile : Option String) (chunked : Bool)
    (timeout : Nat) (uo : Nat → Option Dur)
    (dlo : Nat → Option (Dur × Nat × String)) (delo : Nat → Except String Nat) :
    List Nat → RunState → Except (Nat × RunState) RunState
  | [], st => .ok st
  | i :: rest, st =>
    match iterBody server uploadFile downloadFile chunked timeout
        (uo i) (dlo i) (delo i) st with
    | .error e => .error e
    | .ok st1 =>
      runLoop server uploadFile downloadFile chunked timeout uo dlo delo rest st1

/-- Outcome of the transfer path of `main`: the exit code (from
`process::exit`) if the process exited early, the requests issued, the
recorded durations, and the printed averages (`none` = not printed). -/
structure TransferResult where
  exit : Option Nat
  requests : List HttpRequest
  uploadDurations : List Dur
  downloadDurations : List Dur
  avgUpload : Option Dur
  avgDownload : Option Dur
deriving DecidableEq

/-- The transfer (non-generate) path of `main`: run the loop `iterations`
times, then print the average upload/download time whenever the corresponding
duration vector is non-empty. -/
def runTransfer (server uploadFile downloadFile : Option String)
    (chunked : Bool) (timeout : Nat) (uo : Nat → Option Dur)
    (dlo : Nat → Option (Dur × Nat × String)) (delo : Nat → Except String Nat)
    (iterations : Nat) : TransferResult :=
  match runLoop server uploadFile downloadFile chunked timeout uo dlo delo
      (List.range iterations) initState with
  | .error (code, st) =>
    ⟨some code, st.requests, st.uploadDurations, st.downloadDurations,
      none, none⟩
  | .ok st =>
    ⟨none, st.requests, st.uploadDurations, st.downloadDurations,
      if st.uploadDurations.length > 0 then
        some (averageDuration st.uploadDurations)
      else none,
      if st.downloadDurations.length > 0 then
        some (averageDuration st.downloadDurations)
      else none⟩

/-- The command-line options of `main`, as read from `ArgMatches`.
String-valued options are `Option String` (user-supplied or absent); `chunked`
is the resolved boolean flag. -/
structure Args where
  generate : Option String
  upload : Option String
  download : Option String
  chunked : Bool
  server : Option String
  size : Option String
  timeout : Option String
  iterations : Option String

/-- Model of `matches.args_present()`. -/
def Args.present (a : Args) : Bool :=
  a.generate.isSome || a.upload.isSome || a.download.isSome || a.chunked ||
    a.server.isSome || a.size.isSome || a.timeout.isSome || a.iterations.isSome

/-- Result of one run of `main`. `panicked` models the `unwrap()` panic on an
unparseable `--size` value; `usageOnly` the early return when no arguments are
given; `generatedDigest` the `SHA256: {hash}` output of generate mode;
`transfer` the transfer-path outcome (absent in generate mode). -/
structure MainResult where
  panicked : Bool
  usageOnly : Bool
  generatedDigest : Option String
  fs : FS
  transfer : Option TransferResult

/-- Model of `main` from src/main.rs over the embedded world: `sha` and `rng`
as in `generate_random_text_file`, `fs` the local filesystem, and the
per-iteration outcome oracles `uo` (upload), `dlo` (download), `delo`
(delete). -/
def mainModel (sha : List Nat → String) (rng : Nat → Nat) (args : Args)
    (fs : FS) (uo : Nat → Option Dur) (dlo : Nat → Option (Dur × Nat × String))
    (delo : Nat → Except String Nat) : MainResult :=
  if args.present then
    let iterations := resolveIterations args.iterations
    let timeout := resolveTimeout args.timeout
    match args.generate with
    | some file =>
      match resolveSize args.size with
      | none => ⟨true, false, none, fs, none⟩
      | some size =>
        let r := generate_random_text_file sha rng fs file size
        ⟨false, false, some r.2, r.1, none⟩
    | none =>
      ⟨false, false, none, fs,
        some (runTransfer args.server args.upload args.download args.chunked
          timeout uo dlo delo iterations)⟩
  else ⟨false, true, none, fs, none⟩

/-- The requests issued in one loop iteration when the server URL is present. -/
def iterSegment (s : String) (uploadFile downloadFile : Option String)
    (chunked : Bool) (timeout : Nat) : List HttpRequest :=
  (match uploadFile with
   | some f => [deleteRequest s f, uploadRequest s f timeout]
   | none => []) ++
  (match downloadFile with
   | some f => [downloadRequest s f chunked]
   | none => [])

/-! ## Helper lemmas -/

theorem genBlocks_flatten_length (rng : Nat → Nat) (size : Nat) :
    ∀ fuel generated, size ≤ generated + fuel →
      ((genBlocks rng size generated).flatten).length = size - generated := by
  intro fuel
  induction fuel with
  | zero =>
    intro g hg
    rw [genBlocks]
    have hlt : ¬ g < size := by omega
    simp [hlt]
    omega
  | succ n ih =>
    intro g hg
    rw [genBlocks]
    by_cases hlt : g < size
    · have hch : 0 < min blockSize (size - g) ∧ min blockSize (size - g) ≤ size - g := by
        simp only [blockSize]
        omega
      rw [dif_pos hlt]
      simp only [List.flatten_cons, List.length_append, List.length_map,
        List.length_range]
      rw [ih (g + min blockSize (size - g)) (by omega)]
      omega
    · rw [dif_neg hlt]
      simp
      omega

theorem genBytes_length (rng : Nat → Nat) (size : Nat) :
    (genBytes rng size).length = size := by
  have h := genBlocks_flatten_length rng size size 0 (by omega)
  simpa [genBytes] using h

theorem genBlocks_map_length (rng : Nat → Nat) (size : Nat) :
    ∀ fuel generated, size ≤ generated + fuel →
      (genBlocks rng size generated).map List.length =
        specChunkSizes size generated := by
  intro fuel
  induction fuel with
  | zero =>
    intro g hg
    rw [genBlocks, specChunkSizes]
    have hlt : ¬ g < size := by omega
    simp [hlt]
  | succ n ih =>
    intro g hg
    rw [genBlocks, specChunkSizes]
    by_cases hlt : g < size
    · have hch : 0 < min blockSize (size - g) := by
        simp only [blockSize]
        omega
      rw [dif_pos hlt, dif_pos hlt]
      simp only [List.map_cons, List.length_map, List.length_range]
      rw [ih (g + min blockSize (size - g)) (by omega)]
    · rw [dif_neg hlt, dif_neg hlt]
      simp

/-! ## C1 and C2: file generation -/

/-- C1: for every target size `S ≥ 0` and every path where no file of size `S`
already exists, `generate_random_text_file path S` creates/truncates the file,
writes exactly `S` bytes to it in blocks each sized at the lesser of 1024 and
the remaining byte count, and returns the digest (the abstracted lowercase hex
SHA-256) of exactly the bytes written, which are the file's final content. -/
theorem c1_generate_fresh (sha : List Nat → String) (rng : Nat → Nat) (fs : FS)
    (path : String) (size : Nat)
    (h : ∀ c, fs path = some c → c.length ≠ size) :
    (generate_random_text_file sha rng fs path size).1 path =
        some (genBytes rng size) ∧
    (genBytes rng size).length = size ∧
    genBytes rng size = (genBlocks rng size 0).flatten ∧
    (genBlocks rng size 0).map List.length = specChunkSizes size 0 ∧
    (generate_random_text_file sha rng fs path size).2 =
        sha (genBytes rng size) := by
  refine ⟨?_, genBytes_length rng size, rfl,
    genBlocks_map_length rng size size 0 (by omega), ?_⟩ <;>
    · unfold generate_random_text_file
      cases hfp : fs path with
      | none => simp
      | some c =>
        have hne : c.length ≠ size := h c hfp
        simp [hne]

/-- Closed witness for `c1_generate_fresh` at a concrete input. -/
theorem c1_generate_fresh_witness :
    (generate_random_text_file (fun _ => "h") (fun _ => 0) (fun _ => none)
        "t" 3).1 "t" = some (genBytes (fun _ => 0) 3) ∧
    (genBytes (fun _ => 0) 3).length = 3 ∧
    genBytes (fun _ => 0) 3 = (genBlocks (fun _ => 0) 3 0).flatten ∧
    (genBlocks (fun _ => 0) 3 0).map List.length = specChunkSizes 3 0 ∧
    (generate_random_text_file (fun _ => "h") (fun _ => 0) (fun _ => none)
        "t" 3).2 = (fun _ => "h") (genBytes (fun _ => 0) 3) := by
  exact c1_generate_fresh (fun _ => "h") (fun _ => 0) (fun _ => none) "t" 3
    (fun c hc => Option.noConfusion hc)

/-- C2: calling generate twice with the same path and size performs no write
on the second call (filesystem and digest unchanged: the second call returns
exactly the first call's result), and whenever a file already exists at the
path with byte length equal to the target size, generate skips writing and
returns the digest of the existing bytes with the filesystem untouched. -/
theorem c2_generate_idempotent (sha : List Nat → String) (rng rng' : Nat → Nat)
    (fs : FS) (path : String) (size : Nat) :
    generate_random_text_file sha rng'
        (generate_random_text_file sha rng fs path size).1 path size =
      generate_random_text_file sha rng fs path size ∧
    (∀ c, fs path = some c → c.length = size →
      generate_random_text_file sha rng fs path size = (fs, sha c)) := by
  constructor
  · unfold generate_random_text_file
    cases hfp : fs path with
    | none =>
      simp only []
      have hlen : (genBytes rng size).length = size := genBytes_length rng size
      simp [hlen]
    | some c =>
      by_cases hlen : c.length = size
      · simp [hlen, hfp]
      · have hglen : (genBytes rng size).length = size := genBytes_length rng size
        simp [hlen, hfp, hglen]
  · intro c hc hlen
    unfold generate_random_text_file
    rw [hc]
    simp [hlen]

/-- Closed witness for `c2_generate_idempotent`: a file of the target size
already exists, so generation skips writing and returns the existing digest. -/
theorem c2_generate_idempotent_witness :
    generate_random_text_file (fun _ => "h") (fun _ => 0)
        (fun p => if p = "t" then some [65] else none) "t" 1 =
      ((fun p => if p = "t" then some [65] else none : FS), (fun _ => "h") [65]) := by
  exact (c2_generate_idempotent (fun _ => "h") (fun _ => 0) (fun _ => 0)
    (fun p => if p = "t" then some [65] else none) "t" 1).2 [65] (by decide) rfl

/-! ## Loop characterization helpers -/

theorem iterBody_some (s : String) (uf df : Option String) (ch : Bool)
    (t : Nat) (u : Option Dur) (d : Option (Dur × Nat × String))
    (del : Except String Nat) (st : RunState) :
    iterBody (some s) uf df ch t u d del st =
      .ok ⟨st.requests ++ iterSegment s uf df ch t,
           st.uploadDurations ++ (if uf.isSome then u.toList else []),
           st.downloadDurations ++
             (if df.isSome then ((d.map (·.1)).toList) else [])⟩ := by
  cases uf <;> cases df <;> cases u <;> cases d <;>
    simp [iterBody, iterSegment, Option.toList, List.append_assoc]

theorem runLoop_some (s : String) (uf df : Option String) (ch : Bool) (t : Nat)
    (uo : Nat → Option Dur) (dlo : Nat → Option (Dur × Nat × String))
    (delo : Nat → Except String Nat) :
    ∀ (is : List Nat) (st : RunState),
      runLoop (some s) uf df ch t uo dlo delo is st =
        .ok ⟨st.requests ++
               (List.replicate is.length (iterSegment s uf df ch t)).flatten,
             st.uploadDurations ++ (if uf.isSome then is.filterMap uo else []),
             st.downloadDurations ++
               (if df.isSome then
                  is.filterMap (fun i => (dlo i).map (·.1))
                else [])⟩ := by
  intro is
  induction is with
  | nil => intro st; simp [runLoop]
  | cons i rest ih =>
    intro st
    rw [runLoop, iterBody_some]
    dsimp only
    rw [ih]
    cases uf <;> cases df <;> cases hu : uo i <;> cases hd : dlo i <;>
      simp [List.replicate_succ, List.append_assoc, List.filterMap_cons, hu,
        hd, Option.toList]

theorem runTransfer_some (s : String) (uf df : Option String) (ch : Bool)
    (t : Nat) (uo : Nat → Option Dur)
    (dlo : Nat → Option (Dur × Nat × String)) (delo : Nat → Except String Nat)
    (N : Nat) :
    runTransfer (some s) uf df ch t uo dlo delo N =
      (let ups := if uf.isSome then (List.range N).filterMap uo else []
       let downs := if df.isSome then
           (List.range N).filterMap (fun i => (dlo i).map (·.1))
         else []
       ⟨none, (List.replicate N (iterSegment s uf df ch t)).flatten, ups, downs,
        if ups.length > 0 then some (averageDuration ups) else none,
        if downs.length > 0 then some (averageDuration downs) else none⟩) := by
  rw [runTransfer, runLoop_some]
  simp [initState, List.length_range]

theorem length_filterMap_eq_iff {α β : Type} (f : α → Option β) :
    ∀ l : List α,
      ((l.filterMap f).length = l.length ↔ ∀ a ∈ l, (f a).isSome) := by
  intro l
  induction l with
  | nil => simp
  | cons a l ih =>
    have hle := List.length_filterMap_le f l
    cases h : f a with
    | none =>
      simp only [List.filterMap_cons, h, List.length_cons, List.mem_cons]
      constructor
      · intro heq
        exact absurd heq (by omega)
      · intro hall
        have := hall a (Or.inl rfl)
        simp [h] at this
    | some b =>
      simp only [List.filterMap_cons, h, List.length_cons, List.mem_cons]
      constructor
      · intro heq
        intro x hx
        rcases hx with hx | hx
        · subst hx; simp [h]
        · exact (ih.mp (by omega)) x hx
      · intro hall
        have : (l.filterMap f).length = l.length :=
          ih.mpr (fun x hx => hall x (Or.inr hx))
        omega

theorem length_flatten_replicate {α : Type} (n : Nat) (l : List α) :
    ((List.replicate n l).flatten).length = n * l.length := by
  induction n with
  | zero => simp
  | succ m ih =>
    simp only [List.replicate_succ, List.flatten_cons, List.length_append, ih,
      Nat.succ_mul]
    ring

/-! ## C3: timing statistics -/

/-- C3: for every iteration count `N ≥ 1` with both operation kinds configured
and a server URL present, the recorded durations of a kind are exactly the
durations of its successful calls (failed calls contribute nothing); hence
each list has length at most `N`, with equality exactly when every call of
that kind succeeded, and after all iterations an average for a kind is
reported if and only if its duration list is non-empty, the reported value
being the arithmetic mean of exactly the recorded durations. -/
theorem c3_timing_stats (s uf df : String) (ch : Bool) (t : Nat)
    (uo : Nat → Option Dur) (dlo : Nat → Option (Dur × Nat × String))
    (delo : Nat → Except String Nat) (N : Nat) (hN : 1 ≤ N) :
    (runTransfer (some s) (some uf) (some df) ch t uo dlo delo N).uploadDurations =
        (List.range N).filterMap uo ∧
    (runTransfer (some s) (some uf) (some df) ch t uo dlo delo N).downloadDurations =
        (List.range N).filterMap (fun i => (dlo i).map (·.1)) ∧
    (runTransfer (some s) (some uf) (some df) ch t uo dlo delo N).uploadDurations.length ≤ N ∧
    ((runTransfer (some s) (some uf) (some df) ch t uo dlo delo N).uploadDurations.length = N ↔
      ∀ i < N, (uo i).isSome) ∧
    (runTransfer (some s) (some uf) (some df) ch t uo dlo delo N).downloadDurations.length ≤ N ∧
    ((runTransfer (some s) (some uf) (some df) ch t uo dlo delo N).downloadDurations.length = N ↔
      ∀ i < N, (dlo i).isSome) ∧
    ((runTransfer (some s) (some uf) (some df) ch t uo dlo delo N).avgUpload.isSome ↔
      (runTransfer (some s) (some uf) (some df) ch t uo dlo delo N).uploadDurations ≠ []) ∧
    ((runTransfer (some s) (some uf) (some df) ch t uo dlo delo N).uploadDurations ≠ [] →
      (runTransfer (some s) (some uf) (some df) ch t uo dlo delo N).avgUpload =
        some (averageDuration
          (runTransfer (some s) (some uf) (some df) ch t uo dlo delo N).uploadDurations)) ∧
    ((runTransfer (some s) (some uf) (some df) ch t uo dlo delo N).avgDownload.isSome ↔
      (runTransfer (some s) (some uf) (some df) ch t uo dlo delo N).downloadDurations ≠ []) ∧
    ((runTransfer (some s) (some uf) (some df) ch t uo dlo delo N).downloadDurations ≠ [] →
      (runTransfer (some s) (some uf) (some df) ch t uo dlo delo N).avgDownload =
        some (averageDuration
          (runTransfer (some s) (some uf) (some df) ch t uo dlo delo N).downloadDurations)) := by
  have hr : runTransfer (some s) (some uf) (some df) ch t uo dlo delo N =
      ⟨none, (List.replicate N (iterSegment s (some uf) (some df) ch t)).flatten,
       (List.range N).filterMap uo,
       (List.range N).filterMap (fun i => (dlo i).map (·.1)),
       if ((List.range N).filterMap uo).length > 0 then
         some (averageDuration ((List.range N).filterMap uo))
       else none,
       if ((List.range N).filterMap (fun i => (dlo i).map (·.1))).length > 0 then
         some (averageDuration ((List.range N).filterMap (fun i => (dlo i).map (·.1))))
       else none⟩ := by
    rw [runTransfer_some]
    rfl
  rw [hr]
  dsimp only
  have hlenU := List.length_filterMap_le uo (List.range N)
  have hlenD := List.length_filterMap_le (fun i => (dlo i).map (·.1)) (List.range N)
  have hiffU := length_filterMap_eq_iff uo (List.range N)
  have hiffD := length_filterMap_eq_iff (fun i => (dlo i).map (·.1)) (List.range N)
  have hmap : ∀ i, ((dlo i).map (·.1)).isSome = (dlo i).isSome := by
    intro i; cases dlo i <;> rfl
  refine ⟨rfl, rfl, by simpa [List.length_range] using hlenU, ?_,
    by simpa [List.length_range] using hlenD, ?_, ?_, ?_, ?_, ?_⟩
  · simpa [List.length_range, List.mem_range] using hiffU
  · simp only [List.length_range, List.mem_range] at hiffD
    simpa [hmap] using hiffD
  · by_cases h : (List.range N).filterMap uo = [] <;> simp [h, List.length_pos]
  · intro h
    have : 0 < ((List.range N).filterMap uo).length := List.length_pos.mpr h
    simp [this]
  · by_cases h : (List.range N).filterMap (fun i => (dlo i).map (·.1)) = [] <;>
      simp [h, List.length_pos]
  · intro h
    have : 0 < ((List.range N).filterMap (fun i => (dlo i).map (·.1))).length :=
      List.length_pos.mpr h
    simp [this]

/-- Closed witness for `c3_timing_stats` at one iteration with both calls
succeeding. -/
theorem c3_timing_stats_witness :
    (runTransfer (some "s") (some "u") (some "d") false 30
        (fun _ => some ⟨1, 0⟩) (fun _ => some (⟨2, 0⟩, 5, "x"))
        (fun _ => Except.error "e") 1).uploadDurations =
        (List.range 1).filterMap (fun _ => some ⟨1, 0⟩) ∧
    (runTransfer (some "s") (some "u") (some "d") false 30
        (fun _ => some ⟨1, 0⟩) (fun _ => some (⟨2, 0⟩, 5, "x"))
        (fun _ => Except.error "e") 1).downloadDurations =
        (List.range 1).filterMap
          (fun i => ((fun _ => some ((⟨2, 0⟩ : Dur), 5, "x")) i).map (·.1)) ∧
    (runTransfer (some "s") (some "u") (some "d") false 30
        (fun _ => some ⟨1, 0⟩) (fun _ => some (⟨2, 0⟩, 5, "x"))
        (fun _ => Except.error "e") 1).uploadDurations.length ≤ 1 ∧
    ((runTransfer (some "s") (some "u") (some "d") false 30
        (fun _ => some ⟨1, 0⟩) (fun _ => some (⟨2, 0⟩, 5, "x"))
        (fun _ => Except.error "e") 1).uploadDurations.length = 1 ↔
      ∀ i < 1, ((fun _ => some (⟨1, 0⟩ : Dur)) i).isSome) ∧
    (runTransfer (some "s") (some "u") (some "d") false 30
        (fun _ => some ⟨1, 0⟩) (fun _ => some (⟨2, 0⟩, 5, "x"))
        (fun _ => Except.error "e") 1).downloadDurations.length ≤ 1 ∧
    ((runTransfer (some "s") (some "u") (some "d") false 30
        (fun _ => some ⟨1, 0⟩) (fun _ => some (⟨2, 0⟩, 5, "x"))
        (fun _ => Except.error "e") 1).downloadDurations.length = 1 ↔
      ∀ i < 1, ((fun _ => some ((⟨2, 0⟩ : Dur), 5, "x")) i).isSome) ∧
    ((runTransfer (some "s") (some "u") (some "d") false 30
        (fun _ => some ⟨1, 0⟩) (fun _ => some (⟨2, 0⟩, 5, "x"))
        (fun _ => Except.error "e") 1).avgUpload.isSome ↔
      (runTransfer (some "s") (some "u") (some "d") false 30
        (fun _ => some ⟨1, 0⟩) (fun _ => some (⟨2, 0⟩, 5, "x"))
        (fun _ => Except.error "e") 1).uploadDurations ≠ []) ∧
    ((runTransfer (some "s") (some "u") (some "d") false 30
        (fun _ => some ⟨1, 0⟩) (fun _ => some (⟨2, 0⟩, 5, "x"))
        (fun _ => Except.error "e") 1).uploadDurations ≠ [] →
      (runTransfer (some "s") (some "u") (some "d") false 30
        (fun _ => some ⟨1, 0⟩) (fun _ => some (⟨2, 0⟩, 5, "x"))
        (fun _ => Except.error "e") 1).avgUpload =
        some (averageDuration
          (runTransfer (some "s") (some "u") (some "d") false 30
            (fun _ => some ⟨1, 0⟩) (fun _ => some (⟨2, 0⟩, 5, "x"))
            (fun _ => Except.error "e") 1).uploadDurations)) ∧
    ((runTransfer (some "s") (some "u") (some "d") false 30
        (fun _ => some ⟨1, 0⟩) (fun _ => some (⟨2, 0⟩, 5, "x"))
        (fun _ => Except.error "e") 1).avgDownload.isSome ↔
      (runTransfer (some "s") (some "u") (some "d") false 30
        (fun _ => some ⟨1, 0⟩) (fun _ => some (⟨2, 0⟩, 5, "x"))
        (fun _ => Except.error "e") 1).downloadDurations ≠ []) ∧
    ((runTransfer (some "s") (some "u") (some "d") false 30
        (fun _ => some ⟨1, 0⟩) (fun _ => some (⟨2, 0⟩, 5, "x"))
        (fun _ => Except.error "e") 1).downloadDurations ≠ [] →
      (runTransfer (some "s") (some "u") (some "d") false 30
        (fun _ => some ⟨1, 0⟩) (fun _ => some (⟨2, 0⟩, 5, "x"))
        (fun _ => Except.error "e") 1).avgDownload =
        some (averageDuration
          (runTransfer (some "s") (some "u") (some "d") false 30
            (fun _ => some ⟨1, 0⟩) (fun _ => some (⟨2, 0⟩, 5, "x"))
            (fun _ => Except.error "e") 1).downloadDurations)) := by
  exact c3_timing_stats "s" "u" "d" false 30 (fun _ => some ⟨1, 0⟩)
    (fun _ => some (⟨2, 0⟩, 5, "x")) (fun _ => Except.error "e") 1 (by decide)

/-! ## C4: missing server URL -/

theorem iterBody_noServer (uf df : Option String) (ch : Bool) (t : Nat)
    (u : Option Dur) (d : Option (Dur × Nat × String)) (del : Except String Nat)
    (st : RunState) (h : uf.isSome ∨ df.isSome) :
    iterBody none uf df ch t u d del st = .error (1, st) := by
  cases uf with
  | some f => simp [iterBody]
  | none =>
    cases df with
    | some g => simp [iterBody]
    | none => simp at h

/-- C4 (amended): if upload or download is requested with no server URL
configured and the resolved iteration count is at least 1 (as with the default
of 1), the process terminates with exit status 1 on the first loop iteration,
before any network request — including the pre-upload delete — has been
issued; the check sits inside the loop body, so it runs only when the loop
body is entered. -/
theorem c4_server_required (sha : List Nat → String) (rng : Nat → Nat)
    (args : Args) (fs : FS) (uo : Nat → Option Dur)
    (dlo : Nat → Option (Dur × Nat × String)) (delo : Nat → Except String Nat)
    (hg : args.generate = none) (hs : args.server = none)
    (hreq : args.upload.isSome ∨ args.download.isSome)
    (hN : 1 ≤ resolveIterations args.iterations) :
    (mainModel sha rng args fs uo dlo delo).transfer =
      some ⟨some 1, [], [], [], none, none⟩ := by
  have hpresent : args.present = true := by
    rcases hreq with h | h <;>
      · simp only [Args.present]
        rw [h]
        simp
  obtain ⟨n, hn⟩ : ∃ n, resolveIterations args.iterations = n + 1 := by
    cases h : resolveIterations args.iterations with
    | zero => rw [h] at hN; omega
    | succ m => exact ⟨m, rfl⟩
  unfold mainModel
  rw [hpresent, hg, hs]
  simp only [if_true]
  rw [hn]
  unfold runTransfer
  rw [List.range_succ_eq_map, runLoop, iterBody_noServer _ _ _ _ _ _ _ _ hreq]
  rfl

/-- Closed witness for `c4_server_required`: upload requested, no server,
default iteration count. -/
theorem c4_server_required_witness :
    (mainModel (fun _ => "") (fun _ => 0)
        ⟨none, some "f", none, false, none, none, none, none⟩ (fun _ => none)
        (fun _ => none) (fun _ => none) (fun _ => Except.error "e")).transfer =
      some ⟨some 1, [], [], [], none, none⟩ := by
  exact c4_server_required (fun _ => "") (fun _ => 0)
    ⟨none, some "f", none, false, none, none, none, none⟩ (fun _ => none)
    (fun _ => none) (fun _ => none) (fun _ => Except.error "e") rfl rfl
    (Or.inl rfl) (by decide)

/-- C4 counterexample: with `--upload f`, no server URL and `--iterations 0`,
the loop body never runs, so no check occurs and the process completes
normally (no `exit(1)`), contradicting the claim that the process always
terminates with exit status 1 and that the check is enforced before entering
the loop. -/
theorem c4_counterexample :
    (mainModel (fun _ => "") (fun _ => 0)
        ⟨none, some "f", none, false, none, none, none, some "0"⟩
        (fun _ => none) (fun _ => none) (fun _ => none)
        (fun _ => Except.error "e")).transfer =
      some ⟨none, [], [], [], none, none⟩ := by
  rfl

/-! ## C5: download_file -/

/-- C5: `download_file` issues a single GET — its result depends on the world
only at the one request it makes — to `{server}/download/{file}` when
`chunked` is false and `{server}/download-chunked/{file}` when it is true; on
success it returns the body length paired with the digest of exactly the body,
and on failure a `DownloadError` distinguishing the network-layer kind from
the body-read I/O kind. -/
theorem c5_download_file (sha : List Nat → String)
    (world : HttpRequest → Except String (Except String (List Nat)))
    (server file : String) (chunked : Bool) :
    (downloadRequest server file chunked).method = .GET ∧
    (downloadRequest server file false).url =
        server ++ "/download/" ++ file ∧
    (downloadRequest server file true).url =
        server ++ "/download-chunked/" ++ file ∧
    (∀ w' : HttpRequest → Except String (Except String (List Nat)),
      world (downloadRequest server file chunked) =
          w' (downloadRequest server file chunked) →
      download_file sha world server file chunked =
        download_file sha w' server file chunked) ∧
    (∀ body, world (downloadRequest server file chunked) =
          Except.ok (Except.ok body) →
      download_file sha world server file chunked =
        Except.ok (body.length, sha body)) ∧
    (∀ e, world (downloadRequest server file chunked) = Except.error e →
      download_file sha world server file chunked =
        Except.error (.Network e)) ∧
    (∀ e, world (downloadRequest server file chunked) =
          Except.ok (Except.error e) →
      download_file sha world server file chunked = Except.error (.Io e)) := by
  refine ⟨rfl, ?_, ?_, ?_, ?_, ?_, ?_⟩
  · show server ++ "/" ++ "download" ++ "/" ++ file =
      server ++ "/download/" ++ file
    rw [String.append_assoc server "/" "download"]
    show server ++ "/download" ++ "/" ++ file = server ++ "/download/" ++ file
    rw [String.append_assoc server "/download" "/"]
    rfl
  · show server ++ "/" ++ "download-chunked" ++ "/" ++ file =
      server ++ "/download-chunked/" ++ file
    rw [String.append_assoc server "/" "download-chunked"]
    show server ++ "/download-chunked" ++ "/" ++ file =
      server ++ "/download-chunked/" ++ file
    rw [String.append_assoc server "/download-chunked" "/"]
    rfl
  · intro w' h
    unfold download_file
    rw [h]
  · intro body h
    unfold download_file
    rw [h]
  · intro e h
    unfold download_file
    rw [h]
  · intro e h
    unfold download_file
    rw [h]

/-- Closed witness for `c5_download_file`: a successful plain download of a
two-byte body. -/
theorem c5_download_file_witness :
    download_file (fun _ => "h") (fun _ => Except.ok (Except.ok [1, 2]))
        "s" "f" false = Except.ok (2, (fun _ => "h") [1, 2]) := by
  exact (c5_download_file (fun _ => "h")
    (fun _ => Except.ok (Except.ok [1, 2])) "s" "f" false).2.2.2.2.1 [1, 2] rfl

/-! ## C6, C7, C8: transfer-loop structure -/

/-- C6: in every iteration with an upload file configured and a server URL
present, a DELETE of the same-named remote resource is issued immediately
before the upload request, and the outcome of that delete is discarded: runs
that differ only in the delete oracle are indistinguishable (same requests,
durations, averages and exit), so a delete failure is never surfaced and never
prevents the subsequent upload attempt. -/
theorem c6_delete_before_upload (s uf : String) (df : Option String)
    (ch : Bool) (t : Nat) (uo : Nat → Option Dur)
    (dlo : Nat → Option (Dur × Nat × String))
    (delo delo' : Nat → Except String Nat) (N : Nat) :
    runTransfer (some s) (some uf) df ch t uo dlo delo N =
      runTransfer (some s) (some uf) df ch t uo dlo delo' N ∧
    (runTransfer (some s) (some uf) df ch t uo dlo delo N).requests =
      (List.replicate N ([deleteRequest s uf, uploadRequest s uf t] ++
        (match df with
         | some f => [downloadRequest s f ch]
         | none => []))).flatten := by
  constructor
  · rw [runTransfer_some, runTransfer_some]
  · rw [runTransfer_some]
    rfl

/-- C7: the caller-supplied timeout (in seconds, default 30) is configured
only on the HTTP client used for upload; the clients built for download and
for delete carry no configured timeout. -/
theorem c7_timeout_upload_only (server file dfile : String) (t : Nat)
    (ch : Bool) :
    (uploadRequest server file t).clientTimeout = some t ∧
    (downloadRequest server dfile ch).clientTimeout = none ∧
    (deleteRequest server dfile).clientTimeout = none ∧
    resolveTimeout none = 30 :=
  ⟨rfl, rfl, rfl, rfl⟩

/-- C8: with a configured server URL, the run never exits early — for every
choice of outcome oracles (in particular when every call fails) all `N`
configured iterations execute, issuing exactly the `N` per-iteration request
segments, and an error in one iteration leaves every other iteration's
requests and recorded durations unchanged. -/
theorem c8_all_iterations_run (s : String) (uf df : Option String) (ch : Bool)
    (t : Nat) (uo : Nat → Option Dur) (dlo : Nat → Option (Dur × Nat × String))
    (delo : Nat → Except String Nat) (N : Nat) :
    (runTransfer (some s) uf df ch t uo dlo delo N).exit = none ∧
    (runTransfer (some s) uf df ch t uo dlo delo N).requests =
      (List.replicate N (iterSegment s uf df ch t)).flatten ∧
    (runTransfer (some s) uf df ch t uo dlo delo N).requests.length =
      N * (iterSegment s uf df ch t).length := by
  refine ⟨?_, ?_, ?_⟩ <;> rw [runTransfer_some]
  show ((List.replicate N (iterSegment s uf df ch t)).flatten).length =
    N * (iterSegment s uf df ch t).length
  exact length_flatten_replicate N _

/-! ## C9, C10: mode dispatch and argument parsing -/

/-- C9: when the generate flag is present, the transfer path is never entered:
the result carries no transfer outcome (no network request, no server-URL
check), and any upload, download, chunked, server, timeout or iterations
flags given alongside are ignored — the run is identical to one where they
are absent. -/
theorem c9_generate_mode_exclusive (sha : List Nat → String) (rng : Nat → Nat)
    (fs : FS) (uo : Nat → Option Dur) (dlo : Nat → Option (Dur × Nat × String))
    (delo : Nat → Except String Nat) (g : String) (up dl : Option String)
    (ch : Bool) (srv sz tm it : Option String) :
    (mainModel sha rng ⟨some g, up, dl, ch, srv, sz, tm, it⟩ fs
        uo dlo delo).transfer = none ∧
    mainModel sha rng ⟨some g, up, dl, ch, srv, sz, tm, it⟩ fs uo dlo delo =
      mainModel sha rng ⟨some g, none, none, false, none, sz, none, none⟩ fs
        uo dlo delo := by
  constructor <;>
  · cases h : resolveSize sz with
    | none => simp [mainModel, Args.present, h]
    | some size => simp [mainModel, Args.present, h]

/-- C10: an unparseable `--size` value in generate mode causes a panic
(modelled by `panicked = true`, with no digest reported), whereas unparseable
`--timeout` and `--iterations` values never fail: they silently fall back to
the defaults 30 and 1 respectively. -/
theorem c10_size_parse_panic :
    parseNat "abc" = none ∧
    (mainModel (fun _ => "") (fun _ => 0)
        ⟨some "f", none, none, false, none, some "abc", none, none⟩
        (fun _ => none) (fun _ => none) (fun _ => none)
        (fun _ => Except.error "e")).panicked = true ∧
    (∀ s : String, parseNat s = none →
      resolveIterations (some s) = 1 ∧ resolveTimeout (some s) = 30) := by
  refine ⟨rfl, rfl, ?_⟩
  intro s h
  constructor
  · simp [resolveIterations, h]
  · simp [resolveTimeout, h]

/-- Closed witness for `c10_size_parse_panic`: the non-numeric value `xyz`
falls back to both defaults. -/
theorem c10_size_parse_panic_witness :
    resolveIterations (some "xyz") = 1 ∧ resolveTimeout (some "xyz") = 30 := by
  exact c10_size_parse_panic.2.2 "xyz" rfl
